import Mathlib

/-!
Verification of the Smart Study Planner's allocation and scheduling engine.

Shallow embedding of the JavaScript sources:
  * `src/rules.js`    — the `RulesEngine` (subject weighting, hour allocation,
    session-length and break adaptation, schedule validation, efficiency score);
  * `src/unnamed/part_000` — the `SmartScheduler` (day generation, rolling
    context update, summary) and the `InputManager` import path;
  * `src/storage.js`  — the `StorageManager` import/export path;
  * `src/config.js`   — the `CONFIG` constants.

Modelling conventions:
  * JavaScript numbers are modelled as `Rat` (exact rational arithmetic);
    `NaN` and `undefined` are modelled explicitly by the `JNum` type where a
    computation can actually meet them.  Floating-point rounding artefacts
    are outside the embedding.
  * A thrown `TypeError` is modelled by `Except JsErr`.
  * JavaScript objects used as string-keyed dictionaries are modelled as
    association lists in insertion order (`objSet` updates in place or
    appends, exactly like a JS property write).
  * `x.f || d` on numbers is modelled by `jsOr` (`undefined` and `0` both
    fall back to the default, as in JS truthiness).
-/

set_option maxHeartbeats 1000000
set_option linter.unusedVariables false

namespace StudyPlanner

/-- A thrown JavaScript exception.  The only exception the embedded code can
throw is a `TypeError` from dereferencing `undefined`. -/
inductive JsErr where
  | typeError
  deriving Repr, DecidableEq

/-- A JavaScript numeric value that may be `undefined` or `NaN`.  Used where
the source can actually produce those values (`context.defaultSessionLength`
flowing through `Math.min`/`Math.max`). -/
inductive JNum where
  | undef
  | nan
  | num (q : Rat)
  deriving Repr, DecidableEq

/-- JS truthiness of a `JNum`: `undefined`, `NaN` and `0` are falsy. -/
def JNum.truthy : JNum → Bool
  | .undef => false
  | .nan => false
  | .num q => q != 0

/-- `Math.min(x, c)`: `undefined` coerces to `NaN`, and `NaN` is absorbing. -/
def jsMin : JNum → Rat → JNum
  | .undef, _ => .nan
  | .nan, _ => .nan
  | .num q, c => .num (min q c)

/-- `Math.max(x, c)`: `undefined` coerces to `NaN`, and `NaN` is absorbing. -/
def jsMax : JNum → Rat → JNum
  | .undef, _ => .nan
  | .nan, _ => .nan
  | .num q, c => .num (max q c)

/-- `v || d` for an optional number: `undefined` and `0` fall back to `d`. -/
def jsOr (v : Option Rat) (d : Rat) : Rat :=
  match v with
  | none => d
  | some q => if q = 0 then d else q

/-- First-match lookup in a JS-object-as-dictionary. -/
def objGet {α : Type} (m : List (String × α)) (k : String) : Option α :=
  match m with
  | [] => none
  | (k', v) :: rest => if k' = k then some v else objGet rest k

/-- JS property write `m[k] = v`: update in place if the key exists,
otherwise append (insertion order preserved). -/
def objSet {α : Type} (m : List (String × α)) (k : String) (v : α) :
    List (String × α) :=
  match m with
  | [] => [(k, v)]
  | (k', v') :: rest =>
      if k' = k then (k', v) :: rest else (k', v') :: objSet rest k v

/-- `Number.prototype.toFixed(2)` followed by `parseFloat`: round to two
decimal places, ties toward the larger value. -/
def toFixed2 (q : Rat) : Rat := (Int.floor (q * 100 + 1/2) : Rat) / 100

/-- `Number.prototype.toFixed(1)` followed by `parseFloat`. -/
def toFixed1 (q : Rat) : Rat := (Int.floor (q * 10 + 1/2) : Rat) / 10

/-- `Math.round`: round half toward positive infinity. -/
def jsRound (q : Rat) : Int := Int.floor (q + 1/2)

/-! ## CONFIG (src/config.js) -/

/-- `CONFIG.PRIORITY_WEIGHTS`. -/
def PRIORITY_WEIGHTS : List (String × Rat) :=
  [("high", 3), ("medium", 2), ("low", 1)]

/-- `CONFIG.DIFFICULTY_WEIGHTS`. -/
def DIFFICULTY_WEIGHTS : List (String × Rat) :=
  [("hard", 1.5), ("medium", 1), ("easy", 0.8)]

/-- `CONFIG.SCHEDULING_RULES.REVISION_FREQUENCY`. -/
def REVISION_FREQUENCY : Rat := 3

/-- `CONFIG.SCHEDULING_RULES.MAX_SESSIONS_WITHOUT_LONG_BREAK`. -/
def MAX_SESSIONS_WITHOUT_LONG_BREAK : Nat := 4

/-- `CONFIG.SCHEDULING_RULES.LONG_BREAK_DURATION` (minutes). -/
def LONG_BREAK_DURATION : Rat := 30

/-- `CONFIG.TIME_PREFERENCES.MORNING_PEAK`. -/
def MORNING_PEAK : List Rat := [9, 12]

/-- `CONFIG.TIME_PREFERENCES.AVOID_LATE_NIGHT` (hour of day). -/
def AVOID_LATE_NIGHT : Rat := 22

/-! ## Data model -/

/-- A subject record as built by the `InputManager`. -/
structure Subject where
  id : String
  name : String
  priority : String
  difficulty : String
  hoursNeeded : Rat
  hoursCompleted : Rat
  sessionsCompleted : Nat
  weight : Rat
  deriving Repr, DecidableEq

/-- The rules-engine context object.  `calculateSubjectWeights` is declared
as `calculateSubjectWeights(subjects, context = {})`; the default `{}` has
every field `undefined`, which the field types record as `none`/`undef`. -/
structure Ctx where
  defaultSessionLength : JNum
  lastScheduledSubject : Option String
  daysSinceLastStudy : Option (List (String × Rat))
  deriving Repr, DecidableEq

/-- The default context `{}` used whenever a caller omits the argument. -/
def defaultCtx : Ctx :=
  { defaultSessionLength := .undef
    lastScheduledSubject := none
    daysSinceLastStudy := none }

/-- Result of the `priority_allocation` rule. -/
structure PriorityAllocation where
  weightMultiplier : Rat
  deriving Repr, DecidableEq

/-- Result of the `difficulty_adaptation` rule. -/
structure DifficultyAdaptation where
  adaptedSessionLength : JNum
  breakMultiplier : Rat
  deriving Repr, DecidableEq

/-- Result of the `time_preference` rule. -/
structure TimePreference where
  preferredTimeSlots : List Rat
  deriving Repr, DecidableEq

/-- Result of the `consecutive_avoidance` rule. -/
structure ConsecutiveAvoidance where
  avoidConsecutive : Bool
  coolDown : Nat
  deriving Repr, DecidableEq

/-- Result of the `revision_scheduling` rule. -/
structure RevisionScheduling where
  needsRevision : Bool
  revisionPriority : Rat
  deriving Repr, DecidableEq

/-- The `adjustments` property bag accumulated over the five rules,
keyed by rule name in the source. -/
structure Adjustments where
  priority_allocation : PriorityAllocation
  difficulty_adaptation : DifficultyAdaptation
  time_preference : TimePreference
  consecutive_avoidance : ConsecutiveAvoidance
  revision_scheduling : RevisionScheduling
  deriving Repr, DecidableEq

/-- A subject enriched by `calculateSubjectWeights`
(`{...subject, weight, adjustments}`; the spread copies every subject field
and overwrites `weight`). -/
structure WeightedSubject extends Subject where
  adjustments : Adjustments
  deriving Repr, DecidableEq

/-! ## RulesEngine: calculateSubjectWeights (src/rules.js lines 104-134) -/

/-- The `priority_allocation` rule (rules.js lines 13-19). -/
def rulePriorityAllocation (subject : Subject) : PriorityAllocation :=
  { weightMultiplier := jsOr (objGet PRIORITY_WEIGHTS subject.priority) 1 }

/-- The `difficulty_adaptation` rule (rules.js lines 22-45).  Note that it
reads `context.defaultSessionLength`, which is `undefined` in every call the
repository makes, so `Math.min`/`Math.max` produce `NaN` there. -/
def ruleDifficultyAdaptation (subject : Subject) (context : Ctx) :
    DifficultyAdaptation :=
  let sessionLength := context.defaultSessionLength
  if subject.difficulty = "hard" then
    { adaptedSessionLength := jsMin sessionLength 45, breakMultiplier := 1.5 }
  else if subject.difficulty = "easy" then
    { adaptedSessionLength := jsMax sessionLength 60, breakMultiplier := 0.8 }
  else
    { adaptedSessionLength := sessionLength, breakMultiplier := 1 }

/-- The `time_preference` rule (rules.js lines 48-71). -/
def ruleTimePreference (subject : Subject) : TimePreference :=
  if subject.difficulty = "hard" ∨ subject.priority = "high" then
    { preferredTimeSlots := MORNING_PEAK }
  else if subject.difficulty = "medium" ∨ subject.priority = "medium" then
    { preferredTimeSlots := [13, 17] }
  else
    { preferredTimeSlots := [18, 20] }

/-- The `consecutive_avoidance` rule (rules.js lines 74-85). -/
def ruleConsecutiveAvoidance (subject : Subject) (context : Ctx) :
    ConsecutiveAvoidance :=
  let avoidConsecutive := context.lastScheduledSubject = some subject.id
  { avoidConsecutive
    coolDown := if avoidConsecutive then 2 else 0 }

/-- Weight a single subject: the body of the `subjects.map` callback in
`calculateSubjectWeights`.  The first four rules are total; the fifth rule,
`revision_scheduling` (rules.js line 91), evaluates
`context.daysSinceLastStudy[subject.id]`, which throws a `TypeError` when
`daysSinceLastStudy` is `undefined` (the default context).  The truthiness
guards `if (result.weightMultiplier)` and `if (result.revisionPriority)` are
vacuous because those multipliers are never zero, so the fold multiplies
them in unconditionally. -/
def weighSubject (context : Ctx) (subject : Subject) :
    Except JsErr WeightedSubject :=
  match context.daysSinceLastStudy with
  | none => .error .typeError
  | some daysMap =>
      let pa := rulePriorityAllocation subject
      let da := ruleDifficultyAdaptation subject context
      let tp := ruleTimePreference subject
      let ca := ruleConsecutiveAvoidance subject context
      let daysSinceLastStudy := jsOr (objGet daysMap subject.id) 0
      let needsRevision := daysSinceLastStudy ≥ REVISION_FREQUENCY
      let rs : RevisionScheduling :=
        { needsRevision
          revisionPriority := if needsRevision then 1.5 else 1 }
      let totalWeight :=
        1 * pa.weightMultiplier * rs.revisionPriority
          * jsOr (objGet DIFFICULTY_WEIGHTS subject.difficulty) 1
      .ok { subject with
              weight := toFixed2 totalWeight
              adjustments :=
                { priority_allocation := pa
                  difficulty_adaptation := da
                  time_preference := tp
                  consecutive_avoidance := ca
                  revision_scheduling := rs } }

/-- `calculateSubjectWeights(subjects, context = {})` (rules.js 104-134):
`subjects.map(...)` where the callback can throw, so a throw at any element
aborts the whole map. -/
def calculateSubjectWeights (subjects : List Subject) (context : Ctx) :
    Except JsErr (List WeightedSubject) :=
  match subjects with
  | [] => .ok []
  | s :: rest =>
      match weighSubject context s with
      | .error e => .error e
      | .ok w =>
          match calculateSubjectWeights rest context with
          | .error e => .error e
          | .ok ws => .ok (w :: ws)

/-! ## RulesEngine: allocateDailyHours (src/rules.js lines 137-162) -/

/-- An allocation record: a weighted subject enriched with
`allocatedHours` and `sessionsPerDay`, plus the two fields the scheduler
later writes onto the same objects (`hoursScheduled`,
`hoursScheduledToday`), absent (`none`) when freshly allocated. -/
structure Alloc extends WeightedSubject where
  allocatedHours : Rat
  sessionsPerDay : Int
  hoursScheduled : Option Rat
  hoursScheduledToday : Option Rat
  deriving Repr, DecidableEq

/-- The sort comparator of `allocateDailyHours` (rules.js 156-159):
`priorityOrder[b.priority] - priorityOrder[a.priority]`, where an unknown
priority gives `undefined - x = NaN`, which `Array.prototype.sort` treats
as `+0` (equal). -/
def allocCmp (a b : Alloc) : Int :=
  let order : List (String × Int) := [("high", 3), ("medium", 2), ("low", 1)]
  match objGet order b.priority, objGet order a.priority with
  | some pb, some pa => pb - pa
  | _, _ => 0

/-- Stable insertion of `x` into a sorted list: `x` goes after every element
it does not strictly precede.  Used to model `Array.prototype.sort`, which
is a stable sort; for a consistent comparator every stable sort produces
the same list. -/
def stableInsert {α : Type} (lt : α → α → Bool) (x : α) :
    List α → List α
  | [] => [x]
  | y :: ys => if lt x y then x :: y :: ys else y :: stableInsert lt x ys

/-- Stable sort by a JS comparator (negative result means "a before b"). -/
def stableSortByCmp {α : Type} (cmp : α → α → Int) (l : List α) : List α :=
  l.foldl (fun acc x => stableInsert (fun a b => decide (cmp a b < 0)) x acc) []

/-- `allocateDailyHours(subjects, totalDailyHours)` (rules.js 137-162).
It calls `calculateSubjectWeights(subjects)` with no context, so the
default `{}` is used.  `sessionsPerDay` uses the unrounded allocation
(`Math.ceil(allocatedHours / 2)` reads the `const` before `toFixed`). -/
def allocateDailyHours (subjects : List Subject) (totalDailyHours : Rat) :
    Except JsErr (List Alloc) :=
  match calculateSubjectWeights subjects defaultCtx with
  | .error e => .error e
  | .ok weightedSubjects =>
      let totalWeight := weightedSubjects.foldl (fun sum subj => sum + subj.weight) 0
      let allocations := weightedSubjects.map (fun subject =>
        let proportion := subject.weight / totalWeight
        let allocatedHours := proportion * totalDailyHours
        { subject with
            allocatedHours := toFixed2 allocatedHours
            sessionsPerDay := max 1 (Int.ceil (allocatedHours / 2))
            hoursScheduled := none
            hoursScheduledToday := none })
      .ok (stableSortByCmp allocCmp allocations)

/-! ## RulesEngine: getOptimalSessionLength / getBreakDuration
(src/rules.js lines 164-179) -/

/-- `getOptimalSessionLength(subject, defaultSessionLength)` (rules.js
164-170): weights the single subject with no context, reads
`adjustments.difficulty_adaptation`, and falls back to the default when
`adaptedSessionLength` is falsy.  Indexing `[0]` into an empty result would
itself throw, modelled by the `[]` branch. -/
def getOptimalSessionLength (subject : Subject) (defaultSessionLength : Rat) :
    Except JsErr Rat :=
  match calculateSubjectWeights [subject] defaultCtx with
  | .error e => .error e
  | .ok [] => .error .typeError
  | .ok (w :: _) =>
      let difficultyRule := w.adjustments.difficulty_adaptation
      .ok (match difficultyRule.adaptedSessionLength with
           | .num q => if q = 0 then defaultSessionLength else q
           | _ => defaultSessionLength)

/-- `getBreakDuration(subject, defaultBreakDuration)` (rules.js 173-179). -/
def getBreakDuration (subject : Subject) (defaultBreakDuration : Rat) :
    Except JsErr Int :=
  match calculateSubjectWeights [subject] defaultCtx with
  | .error e => .error e
  | .ok [] => .error .typeError
  | .ok (w :: _) =>
      let multiplier :=
        let bm := w.adjustments.difficulty_adaptation.breakMultiplier
        if bm = 0 then 1 else bm
      .ok (jsRound (defaultBreakDuration * multiplier))

/-- `needsLongBreak(consecutiveSessions, maxSessionsWithoutLongBreak)`
(rules.js 182-184). -/
def needsLongBreak (consecutiveSessions maxSessions : Nat) : Bool :=
  consecutiveSessions ≥ maxSessions

end StudyPlanner

namespace StudyPlanner

/-! ## Claim C1: every caller that omits the context throws -/

/-- Weighting any subject against the default context `{}` throws: the
`revision_scheduling` rule dereferences the `undefined`
`context.daysSinceLastStudy`. -/
theorem weighSubject_defaultCtx (s : Subject) :
    weighSubject defaultCtx s = .error .typeError := rfl

/-- C1.  With the default context `{}`, `calculateSubjectWeights` throws a
`TypeError` on every non-empty subject list (the `revision_scheduling` rule
evaluates `context.daysSinceLastStudy[subject.id]` on an undefined map),
and therefore `allocateDailyHours`, `getOptimalSessionLength` and
`getBreakDuration` — which all call it with no context — throw for every
input instead of returning a value. -/
theorem defaultContext_always_throws (subjects : List Subject)
    (hne : subjects ≠ []) (s : Subject) (hours defLen defBrk : Rat) :
    calculateSubjectWeights subjects defaultCtx = .error .typeError ∧
    allocateDailyHours subjects hours = .error .typeError ∧
    getOptimalSessionLength s defLen = .error .typeError ∧
    getBreakDuration s defBrk = .error .typeError := by
  obtain ⟨x, xs, rfl⟩ : ∃ x xs, subjects = x :: xs := by
    cases subjects with
    | nil => exact absurd rfl hne
    | cons x xs => exact ⟨x, xs, rfl⟩
  refine ⟨?_, ?_, rfl, rfl⟩
  · simp [calculateSubjectWeights, weighSubject_defaultCtx]
  · simp [allocateDailyHours, calculateSubjectWeights, weighSubject_defaultCtx]

/-- Example subject used in concrete witnesses (the spec's concrete
scenario: priority high, difficulty hard, 30 hours needed). -/
def exSubjectHard : Subject :=
  { id := "s1", name := "Data Structures", priority := "high"
    difficulty := "hard", hoursNeeded := 30, hoursCompleted := 0
    sessionsCompleted := 0, weight := 0 }

/-- Second example subject (priority medium, difficulty medium, 20 hours). -/
def exSubjectMed : Subject :=
  { id := "s2", name := "Database Systems", priority := "medium"
    difficulty := "medium", hoursNeeded := 20, hoursCompleted := 0
    sessionsCompleted := 0, weight := 0 }

/-- Witness for C1 at a concrete one-element subject list. -/
theorem defaultContext_always_throws_witness :
    [exSubjectHard] ≠ ([] : List Subject) ∧
    (calculateSubjectWeights [exSubjectHard] defaultCtx = .error .typeError ∧
     allocateDailyHours [exSubjectHard] 4 = .error .typeError ∧
     getOptimalSessionLength exSubjectMed 50 = .error .typeError ∧
     getBreakDuration exSubjectHard 10 = .error .typeError) :=
  ⟨by simp,
   defaultContext_always_throws [exSubjectHard] (by simp) exSubjectMed 4 50 10⟩

/-! ## Claim C2: allocateDailyHours on the spec's concrete scenario -/

/-- C2 (code bug).  On the spec's concrete scenario — subjects
`{priority: high, difficulty: hard, hoursNeeded: 30}` and
`{priority: medium, difficulty: medium, hoursNeeded: 20}` with
`totalDailyHours = 4` — `allocateDailyHours` throws a `TypeError` instead
of returning allocations that sum to the daily budget: it calls
`calculateSubjectWeights(subjects)` without a context. -/
theorem allocateDailyHours_scenario_throws :
    allocateDailyHours [exSubjectHard, exSubjectMed] 4 = .error .typeError := rfl

/-! ## Claim C3: getOptimalSessionLength -/

/-- C3 (code bug).  `getOptimalSessionLength` on a medium-difficulty
subject with default length 50 throws a `TypeError` instead of returning
the default unchanged: it weights the subject with no context. -/
theorem getOptimalSessionLength_medium_throws :
    getOptimalSessionLength exSubjectMed 50 = .error .typeError := rfl

end StudyPlanner

namespace StudyPlanner

/-! ## Slots and day schedules -/

/-- A timetable slot.  Study/revision slots are built by
`createSessionSlot` and break slots by `createBreakSlot` (part_000
522-569).  Fields a JS slot object lacks (`subjectId`, `priority`,
`difficulty` on breaks; `breakType` on sessions) are modelled as `""`. -/
structure Slot where
  id : String
  type : String
  subjectId : String
  subjectName : String
  priority : String
  difficulty : String
  startTime : String
  endTime : String
  duration : Rat
  breakType : String
  completed : Bool
  day : Nat
  deriving Repr, DecidableEq

/-- Whether a slot is a study or revision session
(`slot.type === CONFIG.SESSION_TYPES.STUDY || slot.type ===
CONFIG.SESSION_TYPES.REVISION`). -/
def isStudySlot (s : Slot) : Bool :=
  s.type = "study" ∨ s.type = "revision"

/-- A day's schedule as returned by `generateDaySchedule`
(part_000 485-493). -/
structure DaySchedule where
  day : Nat
  date : String
  totalSessions : Nat
  totalStudyHours : Rat
  slots : List Slot
  deriving Repr, DecidableEq

/-- Sum of slot durations (the `reduce((sum, s) => sum + s.duration, 0)`
pattern). -/
def sumDurations (slots : List Slot) : Rat :=
  slots.foldl (fun sum s => sum + s.duration) 0

/-- Total study/revision minutes of a slot list. -/
def studyMinutes (slots : List Slot) : Rat :=
  sumDurations (slots.filter isStudySlot)

/-- Total break minutes of a slot list. -/
def breakMinutes (slots : List Slot) : Rat :=
  sumDurations (slots.filter (fun s => s.type = "break"))

/-! ## calculateEfficiencyScore (src/rules.js lines 377-403) -/

/-- One step of the nested `forEach` accumulation in
`calculateEfficiencyScore`: study/revision durations into the first
component, break durations into the second. -/
def effStep (acc : Rat × Rat) (slot : Slot) : Rat × Rat :=
  if isStudySlot slot then (acc.1 + slot.duration, acc.2)
  else if slot.type = "break" then (acc.1, acc.2 + slot.duration)
  else acc

/-- `calculateEfficiencyScore(schedule)` (rules.js 377-403): break-to-study
minute ratio scored against the Pomodoro ratio 17/52, with a +10 bonus when
break time exceeds 20% of study time, rounded and capped at 100; 0 when
there is no study time. -/
def calculateEfficiencyScore (schedule : List DaySchedule) : Int :=
  let totals := schedule.foldl (fun acc day => day.slots.foldl effStep acc) (0, 0)
  let totalStudyTime := totals.1
  let totalBreakTime := totals.2
  if totalStudyTime = 0 then 0
  else
    let ratioActual := totalBreakTime / totalStudyTime
    let ratioIdeal : Rat := 17 / 52
    let ratioScore := max 0 (100 - |ratioActual - ratioIdeal| * 1000)
    let breakBonus : Rat := if totalBreakTime > totalStudyTime * 0.2 then 10 else 0
    min 100 (jsRound (ratioScore + breakBonus))

/-! ## generateSummary (src/unnamed/part_000 lines 612-653) -/

/-- The `dailyAverages` object of the summary. -/
structure DailyAverages where
  sessions : Rat
  studyHours : Rat
  deriving Repr, DecidableEq

/-- The summary object returned by `SmartScheduler.generateSummary`. -/
structure Summary where
  totalStudyHours : Rat
  totalBreakHours : Rat
  totalSessions : Nat
  subjectDistribution : List (String × Rat)
  dailyAverages : DailyAverages
  efficiencyScore : Int
  deriving Repr, DecidableEq

/-- `generateSummary(allSlots, subjects, totalDays)` (part_000 612-653).
The efficiency score is computed on the unrounded hour totals; `toFixed(1)`
applies only to the displayed fields.  With `totalDays = 0` the JS averages
are `NaN`/`Infinity` while `Rat` division yields `0`; those display-only
fields are not the subject of any claim. -/
def generateSummary (allSlots : List Slot) (subjects : List Subject)
    (totalDays : Nat) : Summary :=
  let studySlots := allSlots.filter isStudySlot
  let breakSlots := allSlots.filter (fun s => s.type = "break")
  let totalStudyHours := (studySlots.foldl (fun sum s => sum + s.duration) 0) / 60
  let totalBreakHours := (breakSlots.foldl (fun sum s => sum + s.duration) 0) / 60
  let subjectDistribution := studySlots.foldl (fun dist slot =>
    objSet dist slot.subjectName
      (jsOr (objGet dist slot.subjectName) 0 + slot.duration / 60)) []
  let averageSessionsPerDay := (studySlots.length : Rat) / (totalDays : Rat)
  let averageStudyHoursPerDay := totalStudyHours / (totalDays : Rat)
  let efficiencyScore : Int :=
    if totalStudyHours > 0 then
      let ratioActual := totalBreakHours / totalStudyHours
      let ratioIdeal : Rat := 17 / 52
      let ratioScore := max 0 (100 - |ratioActual - ratioIdeal| * 1000)
      let breakBonus : Rat := if totalBreakHours > totalStudyHours * 0.2 then 10 else 0
      min 100 (jsRound (ratioScore + breakBonus))
    else 0
  { totalStudyHours := toFixed1 totalStudyHours
    totalBreakHours := toFixed1 totalBreakHours
    totalSessions := studySlots.length
    subjectDistribution
    dailyAverages :=
      { sessions := toFixed1 averageSessionsPerDay
        studyHours := toFixed1 averageStudyHoursPerDay }
    efficiencyScore }

end StudyPlanner

namespace StudyPlanner

theorem sumDurations_shift (slots : List Slot) (c : Rat) :
    slots.foldl (fun sum s => sum + s.duration) c = c + sumDurations slots := by
  induction slots generalizing c with
  | nil => simp [sumDurations]
  | cons s rest ih =>
      simp only [List.foldl_cons, sumDurations] at *
      rw [ih, ih (0 + s.duration)]
      ring

theorem sumDurations_cons (s : Slot) (l : List Slot) :
    sumDurations (s :: l) = s.duration + sumDurations l := by
  show List.foldl (fun sum s => sum + s.duration) (0 + s.duration) l = _
  rw [sumDurations_shift]
  ring

theorem sumDurations_append (l1 l2 : List Slot) :
    sumDurations (l1 ++ l2) = sumDurations l1 + sumDurations l2 := by
  simp only [sumDurations, List.foldl_append]
  rw [sumDurations_shift]
  rfl

theorem studyMinutes_cons (s : Slot) (l : List Slot) :
    studyMinutes (s :: l) =
      (if isStudySlot s then s.duration else 0) + studyMinutes l := by
  simp only [studyMinutes, List.filter_cons]
  by_cases h : isStudySlot s
  · simp [h, sumDurations_cons]
  · simp [h]

theorem breakMinutes_cons (s : Slot) (l : List Slot) :
    breakMinutes (s :: l) =
      (if s.type = "break" then s.duration else 0) + breakMinutes l := by
  simp only [breakMinutes, List.filter_cons]
  by_cases h : s.type = "break"
  · simp [h, sumDurations_cons]
  · simp [h]

theorem studyMinutes_append (l1 l2 : List Slot) :
    studyMinutes (l1 ++ l2) = studyMinutes l1 + studyMinutes l2 := by
  simp [studyMinutes, List.filter_append, sumDurations_append]

theorem breakMinutes_append (l1 l2 : List Slot) :
    breakMinutes (l1 ++ l2) = breakMinutes l1 + breakMinutes l2 := by
  simp [breakMinutes, List.filter_append, sumDurations_append]

theorem study_not_break (s : Slot) (h : isStudySlot s) : ¬ (s.type = "break") := by
  simp only [isStudySlot, decide_eq_true_eq] at h
  rcases h with h | h <;> simp [h]

theorem effStep_fold (slots : List Slot) (a b : Rat) :
    slots.foldl effStep (a, b) =
      (a + studyMinutes slots, b + breakMinutes slots) := by
  induction slots generalizing a b with
  | nil => simp [studyMinutes, breakMinutes, sumDurations]
  | cons s rest ih =>
      simp only [List.foldl_cons]
      rw [studyMinutes_cons, breakMinutes_cons]
      by_cases h1 : isStudySlot s
      · have h2 := study_not_break s h1
        simp only [effStep, h1, ite_true]
        rw [ih]
        simp only [Prod.mk.injEq, h2, ite_false, if_neg h2]
        constructor <;> ring
      · by_cases h2 : s.type = "break"
        · simp only [effStep, h1, h2, Bool.false_eq_true, if_false, ite_true, if_true]
          rw [ih]
          simp only [Prod.mk.injEq, h1, Bool.false_eq_true, if_false]
          constructor <;> ring
        · simp only [effStep, h1, h2, Bool.false_eq_true, if_false, ite_false]
          rw [ih]
          simp only [Prod.mk.injEq, h1, h2, Bool.false_eq_true, if_false, ite_false]
          constructor <;> ring

theorem effFold_days (schedule : List DaySchedule) (a b : Rat) :
    schedule.foldl (fun acc day => day.slots.foldl effStep acc) (a, b) =
      (a + studyMinutes (schedule.flatMap (fun d => d.slots)),
       b + breakMinutes (schedule.flatMap (fun d => d.slots))) := by
  induction schedule generalizing a b with
  | nil => simp [studyMinutes, breakMinutes, sumDurations]
  | cons d rest ih =>
      simp only [List.foldl_cons, List.flatMap_cons]
      rw [effStep_fold, ih, studyMinutes_append, breakMinutes_append]
      simp only [Prod.mk.injEq]
      constructor <;> ring

/-- Common shape of the efficiency formula over minute totals: proof
abbreviation for the body of `calculateEfficiencyScore`. -/
def scoreOfMinutes (study brk : Rat) : Int :=
  if study = 0 then 0
  else
    let ratioActual := brk / study
    let ratioIdeal : Rat := 17 / 52
    let ratioScore := max 0 (100 - |ratioActual - ratioIdeal| * 1000)
    let breakBonus : Rat := if brk > study * 0.2 then 10 else 0
    min 100 (jsRound (ratioScore + breakBonus))

/-- Common shape of the efficiency formula over hour totals: proof
abbreviation for the efficiency block of `generateSummary`. -/
def scoreOfHours (study brk : Rat) : Int :=
  if study > 0 then
    let ratioActual := brk / study
    let ratioIdeal : Rat := 17 / 52
    let ratioScore := max 0 (100 - |ratioActual - ratioIdeal| * 1000)
    let breakBonus : Rat := if brk > study * 0.2 then 10 else 0
    min 100 (jsRound (ratioScore + breakBonus))
  else 0

theorem calculateEfficiencyScore_eq (schedule : List DaySchedule) :
    calculateEfficiencyScore schedule =
      scoreOfMinutes (studyMinutes (schedule.flatMap (fun d => d.slots)))
        (breakMinutes (schedule.flatMap (fun d => d.slots))) := by
  unfold calculateEfficiencyScore
  rw [effFold_days]
  simp only [zero_add]
  rfl

theorem generateSummary_eff_eq (allSlots : List Slot) (subjects : List Subject)
    (totalDays : Nat) :
    (generateSummary allSlots subjects totalDays).efficiencyScore =
      scoreOfHours (studyMinutes allSlots / 60) (breakMinutes allSlots / 60) := rfl

theorem scoreOf_minutes_hours (S B : Rat) (hS : 0 ≤ S) :
    scoreOfMinutes S B = scoreOfHours (S / 60) (B / 60) := by
  unfold scoreOfMinutes scoreOfHours
  by_cases h0 : S = 0
  · simp [h0]
  · have hpos : 0 < S := lt_of_le_of_ne hS (Ne.symm h0)
    have hdiv : (0 : Rat) < S / 60 := by positivity
    rw [if_neg h0, if_pos hdiv]
    have hr : B / 60 / (S / 60) = B / S := by
      field_simp
    have hb : (S / 60 * 0.2 < B / 60) ↔ (S * 0.2 < B) := by
      constructor <;> intro h <;> linarith
    rw [hr]
    simp only [gt_iff_lt, hb]

/-- C8.  The efficiency score computed inside `generateSummary` (over break
and study hours) equals `calculateEfficiencyScore` (over break and study
minutes) on the same schedule, for every schedule whose total study
duration is non-negative (durations are minutes, non-negative throughout
the data model).  Both implement the same formula: closeness of the
break:study ratio to 17/52, +10 bonus when break time exceeds 20% of study
time, rounded, capped at 100, and 0 without study time. -/
theorem efficiencyScore_refinement (schedule : List DaySchedule)
    (subjects : List Subject) (totalDays : Nat)
    (hS : 0 ≤ studyMinutes (schedule.flatMap (fun d => d.slots))) :
    calculateEfficiencyScore schedule =
      (generateSummary (schedule.flatMap (fun d => d.slots)) subjects
        totalDays).efficiencyScore := by
  rw [calculateEfficiencyScore_eq, generateSummary_eff_eq,
    scoreOf_minutes_hours _ _ hS]

end StudyPlanner

namespace StudyPlanner

/-- A concrete study slot used in witnesses. -/
def exStudySlot : Slot :=
  { id := "session_s1_1_540", type := "study", subjectId := "s1"
    subjectName := "Data Structures", priority := "high", difficulty := "hard"
    startTime := "9:00 AM", endTime := "9:52 AM", duration := 52
    breakType := "", completed := false, day := 1 }

/-- A concrete break slot used in witnesses. -/
def exBreakSlot : Slot :=
  { id := "break_592", type := "break", subjectId := ""
    subjectName := "Break", priority := "", difficulty := ""
    startTime := "9:52 AM", endTime := "10:09 AM", duration := 17
    breakType := "regular", completed := false, day := 1 }

/-- A concrete one-day schedule used in witnesses. -/
def exDaySchedule : DaySchedule :=
  { day := 1, date := "Day 1", totalSessions := 1
    totalStudyHours := 52 / 60, slots := [exStudySlot, exBreakSlot] }

/-- The witness schedule has 52 study minutes. -/
theorem hstudy52 :
    studyMinutes ([exDaySchedule].flatMap fun d => d.slots) = 52 := by
  rw [show [exDaySchedule].flatMap (fun d => d.slots) = [exStudySlot, exBreakSlot] by
    simp [exDaySchedule]]
  rw [studyMinutes_cons, studyMinutes_cons]
  norm_num [studyMinutes, sumDurations, isStudySlot, exStudySlot, exBreakSlot]
  exact ⟨by decide, by decide⟩

/-- Witness for C8 at a concrete one-day schedule (52 study minutes, a
17-minute break; both scores evaluate to 100). -/
theorem efficiencyScore_refinement_witness :
    0 ≤ studyMinutes ([exDaySchedule].flatMap fun d => d.slots) ∧
    calculateEfficiencyScore [exDaySchedule] =
      (generateSummary ([exDaySchedule].flatMap (fun d => d.slots)) []
        1).efficiencyScore :=
  ⟨by rw [hstudy52]; norm_num,
   efficiencyScore_refinement [exDaySchedule] [] 1 (by rw [hstudy52]; norm_num)⟩

end StudyPlanner
namespace StudyPlanner

/-! ## Claim C10: calculateSubjectWeights never mutates its input records

JavaScript objects are heap references, so the frame property is stated
against an explicit heap: addresses are list indices, a field read is a
`get?`, and the spread `{...subject, weight, adjustments}` is an
allocation at the end of the heap.  The callback's computation is the
shared `weighSubject`; the heap embedding records which objects it reads
(the argument addresses) and which it allocates (the enriched copies).
The source performs no property write on any argument object, hence the
embedding contains no in-place heap update. -/

/-- A heap cell: the subject-record fields plus the `adjustments` bag that
only enriched copies carry. -/
structure HeapObj where
  subject : Subject
  adjustments : Option Adjustments
  deriving Repr, DecidableEq

/-- `calculateSubjectWeights` over an explicit heap: for each argument
address, read the record, run the rule fold (which may throw), and
allocate the enriched copy `{...subject, weight, adjustments}` as a fresh
object.  Returns the final heap together with the addresses of the
results (or the thrown error). -/
def calculateSubjectWeightsHeap :
    List Nat → Ctx → List HeapObj → List HeapObj × Except JsErr (List Nat)
  | [], _, h => (h, .ok [])
  | a :: rest, context, h =>
      match h[a]? with
      | none => (h, .error .typeError)
      | some ob =>
          match weighSubject context ob.subject with
          | .error e => (h, .error e)
          | .ok w =>
              let addr := h.length
              let h1 := h ++ [{ subject := w.toSubject, adjustments := some w.adjustments }]
              match calculateSubjectWeightsHeap rest context h1 with
              | (h2, .error e) => (h2, .error e)
              | (h2, .ok rs) => (h2, .ok (addr :: rs))

/-- C10.  `calculateSubjectWeights` never mutates the input subject
records: whether the call returns normally or throws, every input address
still holds exactly its original record afterwards; the heap only grows;
and on a normal return every result address is a newly allocated object
(at or beyond the old heap end, within the new heap). -/
theorem calculateSubjectWeightsHeap_frame (addrs : List Nat) (context : Ctx)
    (h : List HeapObj) :
    (∀ i, i < h.length →
      (calculateSubjectWeightsHeap addrs context h).1[i]? = h[i]?) ∧
    h.length ≤ (calculateSubjectWeightsHeap addrs context h).1.length ∧
    (∀ rs, (calculateSubjectWeightsHeap addrs context h).2 = .ok rs →
      ∀ a ∈ rs, h.length ≤ a ∧
        a < (calculateSubjectWeightsHeap addrs context h).1.length) := by
  induction addrs generalizing h with
  | nil =>
      refine ⟨fun i _ => rfl, le_refl _, fun rs hrs a ha => ?_⟩
      simp only [calculateSubjectWeightsHeap] at hrs
      cases hrs
      simp at ha
  | cons a0 rest ih =>
      cases hget : h[a0]? with
      | none =>
          have hred : calculateSubjectWeightsHeap (a0 :: rest) context h =
              (h, .error .typeError) := by
            simp [calculateSubjectWeightsHeap, hget]
          rw [hred]
          exact ⟨fun i _ => rfl, le_refl _, fun rs hrs => by cases hrs⟩
      | some ob =>
          cases hw : weighSubject context ob.subject with
          | error e =>
              have hred : calculateSubjectWeightsHeap (a0 :: rest) context h =
                  (h, .error e) := by
                simp [calculateSubjectWeightsHeap, hget, hw]
              rw [hred]
              exact ⟨fun i _ => rfl, le_refl _, fun rs hrs => by cases hrs⟩
          | ok w =>
              obtain ⟨ih1, ih2, ih3⟩ :=
                ih (h ++ [{ subject := w.toSubject, adjustments := some w.adjustments }])
              cases hrec : calculateSubjectWeightsHeap rest context
                  (h ++ [{ subject := w.toSubject, adjustments := some w.adjustments }]) with
              | mk h2 res =>
                  rw [hrec] at ih1 ih2 ih3
                  simp only [List.length_append, List.length_cons, List.length_nil] at ih1 ih2 ih3
                  have hkeep : ∀ i, i < h.length → h2[i]? = h[i]? := by
                    intro i hi
                    rw [ih1 i (by omega)]
                    rw [List.getElem?_append, if_pos hi]
                  cases res with
                  | error e =>
                      have hred : calculateSubjectWeightsHeap (a0 :: rest) context h =
                          (h2, .error e) := by
                        simp [calculateSubjectWeightsHeap, hget, hw, hrec]
                      rw [hred]
                      exact ⟨hkeep, by show h.length ≤ h2.length; omega,
                        fun rs hrs => by cases hrs⟩
                  | ok rs =>
                      have hred : calculateSubjectWeightsHeap (a0 :: rest) context h =
                          (h2, .ok (h.length :: rs)) := by
                        simp [calculateSubjectWeightsHeap, hget, hw, hrec]
                      rw [hred]
                      refine ⟨hkeep, by show h.length ≤ h2.length; omega,
                        fun rs2 hrs2 a1 ha1 => ?_⟩
                      simp only [Except.ok.injEq] at hrs2
                      subst hrs2
                      rcases List.mem_cons.mp ha1 with rfl | hmem
                      · exact ⟨le_refl _, by show h.length < h2.length; omega⟩
                      · have hres := ih3 rs rfl a1 hmem
                        exact ⟨by omega, hres.2⟩

end StudyPlanner

namespace StudyPlanner

/-- A context whose `daysSinceLastStudy` map is present (the shape
`generateConstraints` and `generatePlan` would pass), so that the rule
fold returns normally. -/
def exContext : Ctx :=
  { defaultSessionLength := .undef
    lastScheduledSubject := none
    daysSinceLastStudy := some [] }

/-- A one-object heap holding a plain subject record. -/
def exHeap : List HeapObj := [{ subject := exSubjectHard, adjustments := none }]

/-- Witness for C10: on a concrete one-subject heap with a well-formed
context, the call returns normally, the input address still holds its
original record, and the result address is the freshly allocated cell. -/
theorem calculateSubjectWeightsHeap_frame_witness :
    (calculateSubjectWeightsHeap [0] exContext exHeap).1[0]? = exHeap[0]? ∧
    (calculateSubjectWeightsHeap [0] exContext exHeap).2 = .ok [1] ∧
    exHeap.length ≤ 1 ∧
    1 < (calculateSubjectWeightsHeap [0] exContext exHeap).1.length := by
  have hf := calculateSubjectWeightsHeap_frame [0] exContext exHeap
  have hok : (calculateSubjectWeightsHeap [0] exContext exHeap).2 = .ok [1] := rfl
  have hm := hf.2.2 [1] hok 1 (by simp)
  exact ⟨hf.1 0 (by simp [exHeap]), hok, hm.1, hm.2⟩

end StudyPlanner
namespace StudyPlanner

/-! ## validateSchedule (src/rules.js lines 222-310) -/

/-- Key lookup in a JS object used as a dictionary with arbitrary keys. -/
def dictGet {κ α : Type} [DecidableEq κ] (m : List (κ × α)) (k : κ) : Option α :=
  match m with
  | [] => none
  | (k', v) :: rest => if k' = k then some v else dictGet rest k

/-- Property write `m[k] = v` for arbitrary keys: update in place if the
key exists, otherwise append. -/
def dictSet {κ α : Type} [DecidableEq κ] (m : List (κ × α)) (k : κ) (v : α) :
    List (κ × α) :=
  match m with
  | [] => [(k, v)]
  | (k', v') :: rest =>
      if k' = k then (k', v) :: rest else (k', v') :: dictSet rest k v

/-- A violation record pushed by `validateSchedule`. -/
inductive Violation where
  | consecutive_sessions (day slot : Nat) (message : String)
  | time_preference (day slot : Nat) (message : String)
  | revision_needed (subject : String) (daysSinceLast : Rat) (message : String)
  deriving Repr, DecidableEq

/-- The per-subject statistics record maintained by `validateSchedule`. -/
structure SubjStats where
  sessions : Nat
  dailySessions : List (Nat × Nat)
  lastSessionDay : Int
  deriving Repr, DecidableEq

/-- The validation result `{isValid, violations, stats}`. -/
structure ValidationResult where
  isValid : Bool
  violations : List Violation
  stats : List (String × SubjStats)
  deriving Repr, DecidableEq

/-- The context consumed by `validateSchedule`: the only field it reads is
`context.currentDay` (`none` models a context without it, in which case
`undefined - x` is `NaN` and the `> REVISION_FREQUENCY` comparison is
false). -/
structure VCtx where
  currentDay : Option Rat
  deriving Repr, DecidableEq

/-- `slot.startTime.split(':')[0]`. -/
def splitColonHead (s : String) : String := (s.splitOn ":").headD ""

/-- `parseInt` on a string: the leading decimal digits, `NaN` if none. -/
def parseIntJs (s : String) : JNum :=
  match (s.takeWhile Char.isDigit).toNat? with
  | some n => .num n
  | none => .nan

/-- `x < c` where `x` may be `NaN` (any comparison with `NaN` is false). -/
def jnumLt (x : JNum) (c : Rat) : Bool :=
  match x with
  | .num q => q < c
  | _ => false

/-- `x >= c` where `x` may be `NaN`. -/
def jnumGe (x : JNum) (c : Rat) : Bool :=
  match x with
  | .num q => q ≥ c
  | _ => false

/-- Decimal rendering of a JS number in a template string.  Non-integral
rationals are rendered as fractions, unlike JS decimal notation; every
value actually rendered by the embedded code is an integer. -/
def ratStr (q : Rat) : String :=
  if q.den = 1 then toString q.num
  else toString q.num ++ "/" ++ toString q.den

/-- The fresh stats record `{ sessions: 0, dailySessions: {} }` (the
`lastSessionDay` property is added by the assignment that follows
immediately; `-1` matches the initialisation at rules.js 227-233). -/
def freshStats : SubjStats :=
  { sessions := 0, dailySessions := [], lastSessionDay := -1 }

/-- The `daySchedule.slots.forEach` body of `validateSchedule` (rules.js
240-286), walking one day's slots with the running
`(stats, violations, consecutiveSameSubject, lastSubjectId)` state.  The
time-preference check calls `calculateSubjectWeights([subject])` with no
context, which throws whenever the slot's subject is found in `subjects`. -/
def walkSlots (subjects : List Subject) (dayIndex : Nat) :
    Nat → List Slot → List (String × SubjStats) → List Violation → Nat →
    Option String →
    Except JsErr (List (String × SubjStats) × List Violation × Nat × Option String)
  | _, [], stats, viols, consec, last => .ok (stats, viols, consec, last)
  | slotIndex, slot :: rest, stats, viols, consec, last =>
      if isStudySlot slot then
        let subjectId := slot.subjectId
        let stats :=
          match dictGet stats subjectId with
          | some _ => stats
          | none => dictSet stats subjectId freshStats
        let cur := (dictGet stats subjectId).getD freshStats
        let stats := dictSet stats subjectId
          { sessions := cur.sessions + 1
            dailySessions := dictSet cur.dailySessions dayIndex
              ((dictGet cur.dailySessions dayIndex).getD 0 + 1)
            lastSessionDay := (dayIndex : Int) }
        let state :=
          if some subjectId = last then
            let consec := consec + 1
            if consec > 1 then
              (consec, viols ++ [Violation.consecutive_sessions dayIndex slotIndex
                ("Subject repeated consecutively: " ++ slot.subjectName)])
            else (consec, viols)
          else (0, viols)
        let consec := state.1
        let viols := state.2
        let last := some subjectId
        match subjects.find? (fun s => s.id = subjectId) with
        | none => walkSlots subjects dayIndex (slotIndex + 1) rest stats viols consec last
        | some subject =>
            let hour := parseIntJs (splitColonHead slot.startTime)
            match calculateSubjectWeights [subject] defaultCtx with
            | .error e => .error e
            | .ok [] => .error .typeError
            | .ok (w :: _) =>
                let preferredSlots := w.adjustments.time_preference.preferredTimeSlots
                let viols :=
                  if preferredSlots.length = 2 then
                    match preferredSlots with
                    | startH :: endH :: _ =>
                        if jnumLt hour startH || jnumGe hour endH then
                          viols ++ [Violation.time_preference dayIndex slotIndex
                            (slot.subjectName ++ " scheduled outside preferred time ("
                              ++ ratStr startH ++ ":00-" ++ ratStr endH ++ ":00)")]
                        else viols
                    | _ => viols
                  else viols
                walkSlots subjects dayIndex (slotIndex + 1) rest stats viols consec last
      else
        walkSlots subjects dayIndex (slotIndex + 1) rest stats viols consec last

/-- The `schedule.forEach` of `validateSchedule` (rules.js 236-287):
`consecutiveSameSubject` and `lastSubjectId` restart at `0`/`null` on each
day, while stats and violations accumulate. -/
def walkDays (subjects : List Subject) :
    Nat → List DaySchedule → List (String × SubjStats) → List Violation →
    Except JsErr (List (String × SubjStats) × List Violation)
  | _, [], stats, viols => .ok (stats, viols)
  | dayIndex, day :: rest, stats, viols =>
      match walkSlots subjects dayIndex 0 day.slots stats viols 0 none with
      | .error e => .error e
      | .ok (stats, viols, _, _) => walkDays subjects (dayIndex + 1) rest stats viols

/-- The revision-frequency pass of `validateSchedule` (rules.js 290-303),
folding over the stats entries in insertion order. -/
def revisionViolations (stats : List (String × SubjStats))
    (subjects : List Subject) (context : VCtx) : List Violation :=
  stats.foldl (fun viols entry =>
    match subjects.find? (fun s => s.id = entry.1) with
    | none => viols
    | some subject =>
        match context.currentDay with
        | none => viols
        | some currentDay =>
            let daysBetween := currentDay - (entry.2.lastSessionDay : Rat)
            if daysBetween > REVISION_FREQUENCY then
              viols ++ [Violation.revision_needed subject.name daysBetween
                (subject.name ++ " hasn\x27t been studied for " ++ ratStr daysBetween
                  ++ " days. Needs revision.")]
            else viols) []

/-- `validateSchedule(schedule, subjects, context)` (rules.js 222-310). -/
def validateSchedule (schedule : List DaySchedule) (subjects : List Subject)
    (context : VCtx) : Except JsErr ValidationResult :=
  let stats0 := subjects.foldl (fun m subj => dictSet m subj.id freshStats) []
  match walkDays subjects 0 schedule stats0 [] with
  | .error e => .error e
  | .ok (stats, viols) =>
      let violations := viols ++ revisionViolations stats subjects context
      .ok { isValid := violations.isEmpty, violations, stats }

/-- Whether a violation is of type `consecutive_sessions`. -/
def isConsecutiveViolation : Violation → Bool
  | .consecutive_sessions _ _ _ => true
  | _ => false

/-- The number of `consecutive_sessions` violations of a validation run,
or `none` when the run threw. -/
def consecCountOf (r : Except JsErr ValidationResult) : Option Nat :=
  match r with
  | .error _ => none
  | .ok v => some ((v.violations.filter isConsecutiveViolation).length)

/-- A study slot for subject `sid` (shape of `createSessionSlot` output). -/
def mkStudySlot (sid sname : String) : Slot :=
  { id := "session_" ++ sid ++ "_0_540", type := "study", subjectId := sid
    subjectName := sname, priority := "high", difficulty := "medium"
    startTime := "9:00 AM", endTime := "10:00 AM", duration := 60
    breakType := "", completed := false, day := 1 }

/-- A one-day schedule whose slots are `n` consecutive study sessions of
the same subject. -/
def replicateDay (n : Nat) (sid sname : String) : DaySchedule :=
  { day := 1, date := "Day 1", totalSessions := n
    totalStudyHours := 60 * n / 60, slots := List.replicate n (mkStudySlot sid sname) }

end StudyPlanner
namespace StudyPlanner

/-- Number of `consecutive_sessions` violations in a slot-walk result. -/
def consecLenOfW
    (r : Except JsErr
      (List (String × SubjStats) × List Violation × Nat × Option String)) :
    Option Nat :=
  match r with
  | .error _ => none
  | .ok s => some ((s.2.1.filter isConsecutiveViolation).length)

/-- Violations added by walking `m` further same-subject study slots from
a state with `consecutiveSameSubject = c` and the same subject last seen:
one per step once the counter has passed 1. -/
def addCount : Nat → Nat → Nat
  | 0, _ => 0
  | m + 1, c => (if c + 1 > 1 then 1 else 0) + addCount m (c + 1)

theorem addCount_pos (m : Nat) : ∀ c, 1 ≤ c → addCount m c = m := by
  induction m with
  | zero => intro c _; rfl
  | succ m ih =>
      intro c hc
      simp only [addCount, if_pos (by omega : c + 1 > 1)]
      rw [ih (c + 1) (by omega)]
      omega

theorem addCount_zero (m : Nat) : addCount m 0 = m - 1 := by
  cases m with
  | zero => rfl
  | succ m =>
      simp only [addCount, if_neg (by omega : ¬ (0 + 1 > 1))]
      rw [addCount_pos m 1 (by omega)]
      omega

theorem walkSlots_replicate (sid sname : String) (dayIndex : Nat) (m : Nat) :
    ∀ (slotIndex : Nat) (stats : List (String × SubjStats))
      (viols : List Violation) (consec : Nat),
      consecLenOfW (walkSlots [] dayIndex slotIndex
          (List.replicate m (mkStudySlot sid sname)) stats viols consec (some sid)) =
        some ((viols.filter isConsecutiveViolation).length + addCount m consec) := by
  have hstudy : isStudySlot (mkStudySlot sid sname) = true := by
    simp [isStudySlot, mkStudySlot]
  have hsubj : (mkStudySlot sid sname).subjectId = sid := rfl
  have hname : (mkStudySlot sid sname).subjectName = sname := rfl
  induction m with
  | zero =>
      intro slotIndex stats viols consec
      simp [walkSlots, consecLenOfW, addCount]
  | succ m ih =>
      intro slotIndex stats viols consec
      rw [List.replicate_succ]
      by_cases hc : consec + 1 > 1
      · simp only [walkSlots, hstudy, hsubj, hname, List.find?_nil, ite_true,
          Option.some.injEq, if_pos rfl, if_pos hc]
        rw [ih]
        simp only [List.filter_append, List.length_append, List.filter_cons,
          List.filter_nil, isConsecutiveViolation, List.length_cons, List.length_nil,
          ite_true, addCount, if_pos hc]
        norm_num
        omega
      · simp only [walkSlots, hstudy, hsubj, hname, List.find?_nil, ite_true,
          Option.some.injEq, if_pos rfl, if_neg hc]
        rw [ih]
        simp only [addCount, if_neg hc]
        norm_num

end StudyPlanner

namespace StudyPlanner

/-- Defensive helper: a fold whose step ignores its element returns its
accumulator. -/
theorem foldl_const {α β : Type} (f : β → α → β) (hf : ∀ b a, f b a = b) :
    ∀ (l : List α) (acc : β), List.foldl f acc l = acc := by
  intro l
  induction l with
  | nil => intro acc; rfl
  | cons x xs ih => intro acc; rw [List.foldl_cons, hf]; exact ih acc

/-- With an empty subject list the revision pass adds no violations
(every `subjects.find` misses). -/
theorem revisionViolations_no_subjects (stats : List (String × SubjStats))
    (context : VCtx) : revisionViolations stats [] context = [] := by
  unfold revisionViolations
  exact foldl_const _ (fun b a => rfl) stats []

theorem walkSlots_replicate_fromNone (sid sname : String) (dayIndex n slotIndex : Nat)
    (stats : List (String × SubjStats)) (viols : List Violation) :
    consecLenOfW (walkSlots [] dayIndex slotIndex
        (List.replicate n (mkStudySlot sid sname)) stats viols 0 none) =
      some ((viols.filter isConsecutiveViolation).length + (n - 2)) := by
  have hstudy : isStudySlot (mkStudySlot sid sname) = true := by
    simp [isStudySlot, mkStudySlot]
  have hsubj : (mkStudySlot sid sname).subjectId = sid := rfl
  cases n with
  | zero => simp [walkSlots, consecLenOfW]
  | succ k =>
      rw [List.replicate_succ]
      simp only [walkSlots, hstudy, hsubj, List.find?_nil, ite_true, reduceCtorEq,
        if_false, ite_false]
      rw [walkSlots_replicate]
      rw [addCount_zero]
      simp only [Option.some.injEq]
      omega

/-- C4 (amended).  On a day of `n` consecutive same-subject study slots
(validated with an empty subject list, so the time-preference pass does
not throw), `validateSchedule` reports exactly `n - 2`
`consecutive_sessions` violations: the first repetition is never flagged,
only the third and later slots of a run are, and the count does not depend
on how many subjects were available. -/
theorem validateSchedule_consecutive_count (n : Nat) (sid sname : String)
    (context : VCtx) :
    consecCountOf (validateSchedule [replicateDay n sid sname] [] context) =
      some (n - 2) := by
  have hslots : (replicateDay n sid sname).slots =
      List.replicate n (mkStudySlot sid sname) := rfl
  have hw := walkSlots_replicate_fromNone sid sname 0 n 0 [] []
  unfold validateSchedule
  simp only [List.foldl_nil, walkDays, hslots]
  cases hX : walkSlots [] 0 0 (List.replicate n (mkStudySlot sid sname)) [] [] 0 none with
  | error e =>
      rw [hX] at hw
      simp [consecLenOfW] at hw
  | ok s =>
      obtain ⟨stats', viols', c', l'⟩ := s
      rw [hX] at hw
      simp only [consecLenOfW, List.filter_nil, List.length_nil, Nat.zero_add,
        Option.some.injEq] at hw
      simp only [walkDays, revisionViolations_no_subjects, List.append_nil,
        consecCountOf, Option.some.injEq]
      exact hw

/-- Subject record whose id matches the repeated slot in the C4
counterexample. -/
def cexSubjectA : Subject :=
  { id := "A", name := "Algorithms", priority := "high", difficulty := "medium"
    hoursNeeded := 25, hoursCompleted := 0, sessionsCompleted := 0, weight := 0 }

/-- A second available subject for the C4 counterexample. -/
def cexSubjectB : Subject :=
  { id := "B", name := "Databases", priority := "medium", difficulty := "medium"
    hoursNeeded := 20, hoursCompleted := 0, sessionsCompleted := 0, weight := 0 }

/-- C4 (counterexample).  A day consisting of an immediately repeated pair
of same-subject study slots, validated against a list of two available
subjects: instead of reporting exactly one `consecutive_sessions`
violation for the repeat boundary, `validateSchedule` throws a `TypeError`
(its time-preference pass weights the found subject with no context) and
reports nothing at all. -/
theorem validateSchedule_repeated_pair_cex :
    (replicateDay 2 "A" "Algorithms").slots.map (fun s => (s.type, s.subjectId)) =
      [("study", "A"), ("study", "A")] ∧
    validateSchedule [replicateDay 2 "A" "Algorithms"] [cexSubjectA, cexSubjectB]
      { currentDay := some 1 } = .error .typeError :=
  ⟨rfl, rfl⟩

end StudyPlanner
namespace StudyPlanner

/-! ## SmartScheduler context update (src/unnamed/part_000 lines 572-587) -/

/-- The scheduler's rolling context (part_000 338-343). -/
structure SchedContext where
  lastScheduledSubject : Option String
  daysSinceLastStudy : List (String × Rat)
  consecutiveSessions : Nat
  sessionCountToday : Nat
  deriving Repr, DecidableEq

/-- The scheduler's mutable fields touched by `updateContextAfterDay`:
the rolling context and `this.currentDay`. -/
structure SchedState where
  context : SchedContext
  currentDay : Nat
  deriving Repr, DecidableEq

/-- `updateContextAfterDay(dayIndex, daySchedule)` (part_000 572-587):
first every study/revision slot resets its subject's
`daysSinceLastStudy` entry to 0 and records it as
`lastScheduledSubject`; then every tracked key — including the ones just
reset — is incremented; finally `this.currentDay = dayIndex`. -/
def updateContextAfterDay (dayIndex : Nat) (daySchedule : DaySchedule)
    (st : SchedState) : SchedState :=
  let pass := daySchedule.slots.foldl (fun acc slot =>
      if isStudySlot slot then (dictSet acc.1 slot.subjectId 0, some slot.subjectId)
      else acc)
    (st.context.daysSinceLastStudy, st.context.lastScheduledSubject)
  let daysSinceLastStudy := pass.1.map (fun kv => (kv.1, kv.2 + 1))
  { context := { st.context with
      daysSinceLastStudy := daysSinceLastStudy
      lastScheduledSubject := pass.2 }
    currentDay := dayIndex }

/-- Whether a subject id has a study/revision slot in the day. -/
def studiedToday (daySchedule : DaySchedule) (id : String) : Bool :=
  daySchedule.slots.any (fun slot => isStudySlot slot && slot.subjectId = id)

/-- The subject of the day's last study/revision slot, if any. -/
def lastStudiedSubject (daySchedule : DaySchedule) : Option String :=
  ((daySchedule.slots.filter isStudySlot).map (fun s => s.subjectId)).getLast?

theorem dictGet_dictSet_self {κ α : Type} [DecidableEq κ]
    (m : List (κ × α)) (k : κ) (v : α) : dictGet (dictSet m k v) k = some v := by
  induction m with
  | nil => simp [dictGet, dictSet]
  | cons kv rest ih =>
      obtain ⟨k', v'⟩ := kv
      by_cases h : k' = k
      · simp [dictGet, dictSet, h]
      · simp [dictGet, dictSet, h, ih]

theorem dictGet_dictSet_ne {κ α : Type} [DecidableEq κ]
    (m : List (κ × α)) (k1 k2 : κ) (v : α) (h : k1 ≠ k2) :
    dictGet (dictSet m k1 v) k2 = dictGet m k2 := by
  induction m with
  | nil => simp [dictGet, dictSet, h]
  | cons kv rest ih =>
      obtain ⟨k', v'⟩ := kv
      by_cases hk : k' = k1
      · subst hk
        simp [dictGet, dictSet, h]
      · simp [dictGet, dictSet, hk, ih]

theorem dictGet_map_incr (m : List (String × Rat)) (id : String) :
    dictGet (m.map (fun kv => (kv.1, kv.2 + 1))) id =
      (dictGet m id).map (fun v => v + 1) := by
  induction m with
  | nil => simp [dictGet]
  | cons kv rest ih =>
      obtain ⟨k', v'⟩ := kv
      by_cases h : k' = id
      · simp [dictGet, h]
      · simp [dictGet, h, ih]

/-- The first pass of `updateContextAfterDay`, as a named step function. -/
def resetStep (acc : List (String × Rat) × Option String) (slot : Slot) :
    List (String × Rat) × Option String :=
  if isStudySlot slot then (dictSet acc.1 slot.subjectId 0, some slot.subjectId)
  else acc

theorem resetStep_fold_eq (slots : List Slot)
    (acc : List (String × Rat) × Option String) :
    slots.foldl (fun acc slot =>
        if isStudySlot slot then (dictSet acc.1 slot.subjectId 0, some slot.subjectId)
        else acc) acc = slots.foldl resetStep acc := rfl

theorem resetFold_not_studied (slots : List Slot) :
    ∀ (acc : List (String × Rat) × Option String) (id : String),
      ¬ slots.any (fun slot => isStudySlot slot && slot.subjectId = id) →
      dictGet (slots.foldl resetStep acc).1 id = dictGet acc.1 id := by
  induction slots with
  | nil => intro acc id _; rfl
  | cons s rest ih =>
      intro acc id hno
      simp only [List.any_cons, Bool.or_eq_true, not_or] at hno
      obtain ⟨hs, hrest⟩ := hno
      rw [List.foldl_cons]
      by_cases hstudy : isStudySlot s
      · have hne : s.subjectId ≠ id := by
          intro heq
          exact hs (by simp [hstudy, heq])
        rw [ih _ id (by simpa using hrest)]
        simp only [resetStep, hstudy, ite_true]
        exact dictGet_dictSet_ne _ _ _ _ hne
      · rw [ih _ id (by simpa using hrest)]
        simp [resetStep, hstudy]

theorem resetFold_studied (slots : List Slot) :
    ∀ (acc : List (String × Rat) × Option String) (id : String),
      slots.any (fun slot => isStudySlot slot && slot.subjectId = id) →
      dictGet (slots.foldl resetStep acc).1 id = some 0 := by
  induction slots with
  | nil => intro acc id h; simp at h
  | cons s rest ih =>
      intro acc id h
      rw [List.foldl_cons]
      by_cases hrest : rest.any (fun slot => isStudySlot slot && slot.subjectId = id)
      · exact ih _ id hrest
      · simp only [List.any_cons, Bool.or_eq_true] at h
        rcases h with hhead | h2
        · simp only [Bool.and_eq_true, decide_eq_true_eq] at hhead
          obtain ⟨hstudy, hid⟩ := hhead
          rw [resetFold_not_studied rest _ id (by simpa using hrest)]
          simp only [resetStep, hstudy, ite_true, hid]
          exact dictGet_dictSet_self _ _ _
        · exact absurd h2 (by simpa using hrest)

theorem getLast?_cons_or {α : Type} (a : α) (l : List α) :
    (a :: l).getLast? = l.getLast?.or (some a) := by
  induction l generalizing a with
  | nil => rfl
  | cons b t ih =>
      rw [List.getLast?_cons_cons, ih b]
      cases t.getLast? <;> rfl

theorem resetFold_last (slots : List Slot) :
    ∀ (acc : List (String × Rat) × Option String),
      (slots.foldl resetStep acc).2 =
        (((slots.filter isStudySlot).map (fun s => s.subjectId)).getLast?).or acc.2 := by
  induction slots with
  | nil => intro acc; rfl
  | cons s rest ih =>
      intro acc
      rw [List.foldl_cons]
      by_cases hstudy : isStudySlot s
      · rw [ih]
        simp only [resetStep, hstudy, ite_true, List.filter_cons, List.map_cons]
        rw [getLast?_cons_or]
        cases hrest : ((rest.filter isStudySlot).map (fun s => s.subjectId)).getLast? <;> rfl
      · rw [ih]
        simp [resetStep, hstudy, List.filter_cons]

/-- C5 (amended).  After `updateContextAfterDay`, `daysSinceLastStudy` is
1 — not 0 — for every subject studied that day (it is reset to 0 and then
swept up by the increment-all loop), is incremented by exactly 1 for every
other tracked subject, `lastScheduledSubject` is the subject of the day's
last study/revision slot (unchanged if the day has none), and
`currentDay` becomes the day index. -/
theorem updateContextAfterDay_spec (dayIndex : Nat) (daySchedule : DaySchedule)
    (st : SchedState) :
    (∀ id, studiedToday daySchedule id →
      dictGet (updateContextAfterDay dayIndex daySchedule st).context.daysSinceLastStudy
        id = some 1) ∧
    (∀ id, ¬ studiedToday daySchedule id →
      dictGet (updateContextAfterDay dayIndex daySchedule st).context.daysSinceLastStudy
        id = (dictGet st.context.daysSinceLastStudy id).map (fun v => v + 1)) ∧
    (updateContextAfterDay dayIndex daySchedule st).context.lastScheduledSubject =
      (lastStudiedSubject daySchedule).or st.context.lastScheduledSubject ∧
    (updateContextAfterDay dayIndex daySchedule st).currentDay = dayIndex := by
  refine ⟨fun id hid => ?_, fun id hid => ?_, ?_, rfl⟩
  · show dictGet ((daySchedule.slots.foldl resetStep _).1.map (fun kv => (kv.1, kv.2 + 1))) id = _
    rw [dictGet_map_incr, resetFold_studied daySchedule.slots _ id hid]
    norm_num
  · show dictGet ((daySchedule.slots.foldl resetStep _).1.map (fun kv => (kv.1, kv.2 + 1))) id = _
    rw [dictGet_map_incr, resetFold_not_studied daySchedule.slots _ id (by simpa [studiedToday] using hid)]
  · show (daySchedule.slots.foldl resetStep _).2 = _
    rw [resetFold_last]
    rfl

/-- The one-study-slot day used by the C5 counterexample and witness. -/
def cexDayA : DaySchedule :=
  { day := 1, date := "Day 1", totalSessions := 1, totalStudyHours := 1
    slots := [mkStudySlot "A" "Algorithms"] }

/-- The pre-day scheduler state used by the C5 counterexample and
witness: subject A was last studied 5 days ago, subject B 7 days ago. -/
def cexState : SchedState :=
  { context :=
      { lastScheduledSubject := none
        daysSinceLastStudy := [("A", 5), ("B", 7)]
        consecutiveSessions := 0
        sessionCountToday := 0 }
    currentDay := 0 }

/-- C5 (counterexample).  Subject A is studied on the day, yet after
`updateContextAfterDay` its `daysSinceLastStudy` entry is 1, not the 0
the claim requires: the increment-all loop runs after the reset loop and
sweeps up the subjects just reset. -/
theorem updateContextAfterDay_cex :
    studiedToday cexDayA "A" = true ∧
    dictGet (updateContextAfterDay 0 cexDayA cexState).context.daysSinceLastStudy "A" =
      some 1 ∧
    some (1 : Rat) ≠ some (0 : Rat) := by
  refine ⟨rfl, ?_, by norm_num⟩
  show dictGet ((cexDayA.slots.foldl resetStep
      (cexState.context.daysSinceLastStudy, cexState.context.lastScheduledSubject)).1.map
      (fun kv => (kv.1, kv.2 + 1))) "A" = some 1
  rw [dictGet_map_incr, resetFold_studied _ _ _ (by decide)]
  norm_num

/-- Witness for C5's amended theorem at the concrete day and state:
studied subject A ends at 1, untouched subject B at 8, and the last
scheduled subject is A. -/
theorem updateContextAfterDay_spec_witness :
    (studiedToday cexDayA "A" = true ∧
     dictGet (updateContextAfterDay 0 cexDayA cexState).context.daysSinceLastStudy "A" =
       some 1) ∧
    (¬ studiedToday cexDayA "B" = true ∧
     dictGet (updateContextAfterDay 0 cexDayA cexState).context.daysSinceLastStudy "B" =
       (dictGet cexState.context.daysSinceLastStudy "B").map (fun v => v + 1)) ∧
    (updateContextAfterDay 0 cexDayA cexState).context.lastScheduledSubject =
      (lastStudiedSubject cexDayA).or cexState.context.lastScheduledSubject :=
  ⟨⟨by decide, (updateContextAfterDay_spec 0 cexDayA cexState).1 "A" (by decide)⟩,
   ⟨by decide, (updateContextAfterDay_spec 0 cexDayA cexState).2.1 "B" (by decide)⟩,
   (updateContextAfterDay_spec 0 cexDayA cexState).2.2.1⟩

end StudyPlanner
namespace StudyPlanner

/-! ## SmartScheduler day generation (src/unnamed/part_000 lines 389-519) -/

/-- The `sessionSettings` object.  `getSessionSettings` (part_000 104-110)
builds `{sessionLength, breakDuration, longBreakDuration}` only, yet
`generateDaySchedule` reads `sessionSettings.dailyHours`; the field is
therefore part of the type as an `Option`, and it is `none` (undefined) in
every object the input boundary actually produces. -/
structure SessionSettings where
  sessionLength : Rat
  breakDuration : Rat
  longBreakDuration : Rat
  dailyHours : Option Rat
  deriving Repr, DecidableEq

/-- `padStart(2, '0')` on a minutes string. -/
def padTwo (s : String) : String := if s.length < 2 then "0" ++ s else s

/-- `formatTime(minutes)` (part_000 590-596): 12-hour `H:MM AM/PM`
rendering of a minutes-since-midnight count. -/
def formatTime (minutes : Rat) : String :=
  let hours : Int := Int.floor (minutes / 60)
  let mins : Rat := minutes - 60 * (hours : Rat)
  let period := if hours ≥ 12 then "PM" else "AM"
  let displayHours : Int := if hours % 12 = 0 then 12 else hours % 12
  toString displayHours ++ ":" ++ padTwo (ratStr mins) ++ " " ++ period

/-- `createSessionSlot(subject, startTimeMinutes, duration, dayIndex)`
(part_000 522-546); the session type is `revision` when the subject's
days-since-last-study counter has reached `REVISION_FREQUENCY`. -/
def createSessionSlot (ctx : SchedContext) (subject : Alloc)
    (startTimeMinutes duration : Rat) (dayIndex : Nat) : Slot :=
  let daysSince := jsOr (dictGet ctx.daysSinceLastStudy subject.id) 0
  { id := "session_" ++ subject.id ++ "_" ++ toString dayIndex ++ "_"
      ++ ratStr startTimeMinutes
    type := if daysSince ≥ REVISION_FREQUENCY then "revision" else "study"
    subjectId := subject.id
    subjectName := subject.name
    priority := subject.priority
    difficulty := subject.difficulty
    startTime := formatTime startTimeMinutes
    endTime := formatTime (startTimeMinutes + duration)
    duration := duration
    breakType := ""
    completed := false
    day := dayIndex + 1 }

/-- `createBreakSlot(startTimeMinutes, duration, breakType)` (part_000
549-569); `this.currentDay` is passed explicitly. -/
def createBreakSlot (currentDay : Nat) (startTimeMinutes duration : Rat)
    (breakType : String) : Slot :=
  { id := "break_" ++ ratStr startTimeMinutes
    type := "break"
    subjectId := ""
    subjectName :=
      if breakType = "long" then "Long Break"
      else if breakType = "lunch" then "Lunch Break"
      else "Break"
    priority := ""
    difficulty := ""
    startTime := formatTime startTimeMinutes
    endTime := formatTime (startTimeMinutes + duration)
    duration := duration
    breakType := breakType
    completed := false
    day := currentDay + 1 }

/-- `selectTodaysSubjects(allocations, dayIndex)` (part_000 497-519).
With no available subjects the JS start index is `NaN` and
`slice(NaN, NaN)` is empty, modelled by the explicit empty branch. -/
def selectTodaysSubjects (ctx : SchedContext) (allocations : List Alloc)
    (dayIndex : Nat) : List Alloc :=
  let revisionSubjects := allocations.filter (fun subject =>
    jsOr (dictGet ctx.daysSinceLastStudy subject.id) 0 ≥ REVISION_FREQUENCY)
  if revisionSubjects.length > 0 then revisionSubjects.take 3
  else
    let availableSubjects := allocations.filter (fun subject =>
      jsOr subject.hoursScheduled 0 < subject.allocatedHours * ((dayIndex : Rat) + 1))
    if availableSubjects.length = 0 then []
    else
      let subjectsPerDay := min availableSubjects.length 4
      let startIdx := dayIndex % max 1 (availableSubjects.length / subjectsPerDay)
      (availableSubjects.drop startIdx).take subjectsPerDay

/-- The `todaysSubjects.sort` comparator (part_000 399-410): subjects
needing revision first, then by priority; an unknown priority makes the
comparator `NaN`, treated as equal. -/
def todayCmp (ctx : SchedContext) (a b : Alloc) : Int :=
  let aNeedsRevision : Bool :=
    match dictGet ctx.daysSinceLastStudy a.id with
    | none => false
    | some v => decide (v ≥ REVISION_FREQUENCY)
  let bNeedsRevision : Bool :=
    match dictGet ctx.daysSinceLastStudy b.id with
    | none => false
    | some v => decide (v ≥ REVISION_FREQUENCY)
  if aNeedsRevision && !bNeedsRevision then -1
  else if !aNeedsRevision && bNeedsRevision then 1
  else allocCmp a b

/-- The write `subject.hoursScheduledToday = (subject.hoursScheduledToday
|| 0) + sessionLength / 60` (part_000 446).  The property is never read
anywhere in the repository, so the write is modelled on the day-local
subject list. -/
def updateHoursScheduledToday (todays : List Alloc) (i : Nat) (add : Rat) :
    List Alloc :=
  match todays[i]? with
  | none => todays
  | some subject =>
      todays.set i
        { subject with hoursScheduledToday := some (jsOr subject.hoursScheduledToday 0 + add) }

/-- The `while (remainingHours > 0 && currentTime < 21 * 60)` loop of
`generateDaySchedule` (part_000 416-471), with explicit fuel: `none`
means the fuel ran out (the JS loop can diverge when every candidate
equals the previous subject), `some (.error e)` a thrown exception, and
`some (.ok (slots, time))` normal exit with the accumulated slots and the
clock.  `remainingHours` starts as `sessionSettings.dailyHours`, which is
`undefined` at the only call site, making the guard false at once. -/
def fillLoop (settings : SessionSettings) (dayIndex : Nat) (ctx : SchedContext)
    (currentDay : Nat) :
    Nat → List Alloc → Option Rat → Rat → Nat → Option String → Nat → List Slot →
    Option (Except JsErr (List Slot × Rat))
  | 0, _, _, _, _, _, _, _ => none
  | fuel + 1, todays, remainingHours, currentTime, sessionCount, lastSubjectId,
      subjectIndex, daySlots =>
      if !((match remainingHours with
              | none => false
              | some r => decide (r > 0)) && decide (currentTime < 21 * 60)) then
        some (.ok (daySlots, currentTime))
      else
        match todays[subjectIndex % todays.length]? with
        | none => some (.ok (daySlots, currentTime))
        | some subject =>
            if lastSubjectId = some subject.id ∧ todays.length > 1 then
              fillLoop settings dayIndex ctx currentDay fuel todays remainingHours
                currentTime sessionCount lastSubjectId (subjectIndex + 1) daySlots
            else
              match getOptimalSessionLength subject.toSubject settings.sessionLength with
              | .error e => some (.error e)
              | .ok sessionLength =>
                  match getBreakDuration subject.toSubject settings.breakDuration with
                  | .error e => some (.error e)
                  | .ok breakDuration =>
                      let slots1 := daySlots ++
                        [createSessionSlot ctx subject currentTime sessionLength dayIndex]
                      let t1 := currentTime + sessionLength
                      let rem1 : Option Rat :=
                        some (remainingHours.getD 0 - sessionLength / 60)
                      let sc1 := sessionCount + 1
                      let last1 := some subject.id
                      let todays1 := updateHoursScheduledToday todays
                        (subjectIndex % todays.length) (sessionLength / 60)
                      let step :=
                        if needsLongBreak sc1 MAX_SESSIONS_WITHOUT_LONG_BREAK then
                          (slots1 ++ [createBreakSlot currentDay t1 LONG_BREAK_DURATION "long"],
                           t1 + LONG_BREAK_DURATION, 0)
                        else if (match rem1 with
                            | none => false
                            | some r => decide (r > 0)) then
                          (slots1 ++ [createBreakSlot currentDay t1 (breakDuration : Rat) "regular"],
                           t1 + (breakDuration : Rat), sc1)
                        else (slots1, t1, sc1)
                      if step.2.1 ≥ AVOID_LATE_NIGHT * 60 then
                        some (.ok (step.1, step.2.1))
                      else
                        fillLoop settings dayIndex ctx currentDay fuel todays1 rem1
                          step.2.1 step.2.2 last1 (subjectIndex + 1) step.1

/-- `generateDaySchedule(dayIndex, allocations, sessionSettings)`
(part_000 389-494).  `this.context`, `this.currentDay` and the
DOM-derived `calculateDate(dayIndex)` string are passed explicitly; the
extra fuel argument bounds the JS while loop. -/
def generateDaySchedule (dayIndex : Nat) (allocations : List Alloc)
    (sessionSettings : SessionSettings) (ctx : SchedContext) (currentDay : Nat)
    (dateStr : String) (fuel : Nat) : Option (Except JsErr DaySchedule) :=
  match fillLoop sessionSettings dayIndex ctx currentDay fuel
      (stableSortByCmp (todayCmp ctx) (selectTodaysSubjects ctx allocations dayIndex))
      sessionSettings.dailyHours (9 * 60) 0 none 0 [] with
  | none => none
  | some (.error e) => some (.error e)
  | some (.ok (daySlots, currentTime)) =>
      let daySlots :=
        if currentTime > 12 * 60 ∧ currentTime < 14 * 60 then
          match daySlots.findIdx? (fun slot =>
              jnumGe (parseIntJs (splitColonHead slot.startTime)) 12) with
          | some lunchIndex =>
              daySlots.insertIdx lunchIndex (createBreakSlot currentDay (12 * 60) 60 "lunch")
          | none => daySlots
        else daySlots
      some (.ok
        { day := dayIndex + 1
          date := dateStr
          totalSessions := (daySlots.filter isStudySlot).length
          totalStudyHours :=
            (daySlots.filter isStudySlot).foldl (fun sum s => sum + s.duration) 0 / 60
          slots := daySlots })

end StudyPlanner
namespace StudyPlanner

/-- `getOptimalSessionLength` throws on every input: it weights the
subject against the default context (helper fact shared by the scheduler
lemmas). -/
theorem getOptimalSessionLength_err (s : Subject) (d : Rat) :
    getOptimalSessionLength s d = .error .typeError := rfl

/-- With the `dailyHours` field undefined — as in every object the input
boundary produces — the fill loop's guard is false at once and the loop
exits with its accumulator untouched. -/
theorem fillLoop_undefined_hours (settings : SessionSettings) (dayIndex : Nat)
    (ctx : SchedContext) (currentDay : Nat) (fuel : Nat) (hf : 1 ≤ fuel) :
    ∀ todays t sc last idx slots,
      fillLoop settings dayIndex ctx currentDay fuel todays none t sc last idx slots =
        some (.ok (slots, t)) := by
  cases fuel with
  | zero => omega
  | succ n => intro todays t sc last idx slots; rfl

/-- Whatever the arguments, a normal exit of the fill loop returns its
initial slot accumulator and clock unchanged: the loop can only exit
through its guard, the empty-subject break, or the skip path — the
session-emitting path always throws, because `getOptimalSessionLength`
throws. -/
theorem fillLoop_ok_inv (settings : SessionSettings) (dayIndex : Nat)
    (ctx : SchedContext) (currentDay : Nat) :
    ∀ fuel todays remaining t sc last idx slots slots' t',
      fillLoop settings dayIndex ctx currentDay fuel todays remaining t sc last
          idx slots = some (.ok (slots', t')) →
      slots' = slots ∧ t' = t := by
  intro fuel
  induction fuel with
  | zero =>
      intro todays remaining t sc last idx slots slots' t' h
      simp [fillLoop] at h
  | succ n ih =>
      intro todays remaining t sc last idx slots slots' t' h
      simp only [fillLoop] at h
      split at h
      · simp only [Option.some.injEq, Except.ok.injEq, Prod.mk.injEq] at h
        exact ⟨h.1.symm, h.2.symm⟩
      · split at h
        · simp only [Option.some.injEq, Except.ok.injEq, Prod.mk.injEq] at h
          exact ⟨h.1.symm, h.2.symm⟩
        · split at h
          · exact ih _ _ _ _ _ _ _ _ _ h
          · rw [getOptimalSessionLength_err] at h
            simp at h

/-- Every day `generateDaySchedule` actually produces is empty: the fill
loop never emits a slot (its session path always throws and its other
paths leave the accumulator untouched), and with the clock still at 9:00
the lunch patch does not fire. -/
theorem generateDaySchedule_ok_slots (dayIndex : Nat) (allocations : List Alloc)
    (sessionSettings : SessionSettings) (ctx : SchedContext) (currentDay : Nat)
    (dateStr : String) (fuel : Nat) (ds : DaySchedule)
    (h : generateDaySchedule dayIndex allocations sessionSettings ctx currentDay
        dateStr fuel = some (.ok ds)) :
    ds.slots = [] := by
  unfold generateDaySchedule at h
  split at h
  · cases h
  · cases h
  · rename_i daySlots currentTime heq
    obtain ⟨hslots, htime⟩ := fillLoop_ok_inv sessionSettings dayIndex ctx currentDay
      fuel _ _ _ _ _ _ _ _ _ heq
    subst hslots htime
    rw [if_neg (by norm_num)] at h
    simp only [Option.some.injEq, Except.ok.injEq] at h
    rw [← h]

/-- The day's study/revision subject sequence. -/
def studySubjectSeq (slots : List Slot) : List String :=
  (slots.filter isStudySlot).map (fun s => s.subjectId)

/-- No two adjacent entries of the list are equal. -/
def noAdjacentRepeat : List String → Bool
  | a :: b :: rest => a ≠ b && noAdjacentRepeat (b :: rest)
  | _ => true

/-- C6.  No day `generateDaySchedule` returns ever places two
identical-subject study slots back to back (with or without the claim's
two-distinct-subjects proviso): every generated day is in fact empty,
because the fill loop reads the absent `sessionSettings.dailyHours` and
its session path throws. -/
theorem generateDaySchedule_no_back_to_back (dayIndex : Nat)
    (allocations : List Alloc) (sessionSettings : SessionSettings)
    (ctx : SchedContext) (currentDay : Nat) (dateStr : String) (fuel : Nat)
    (ds : DaySchedule)
    (h : generateDaySchedule dayIndex allocations sessionSettings ctx currentDay
        dateStr fuel = some (.ok ds)) :
    noAdjacentRepeat (studySubjectSeq ds.slots) = true := by
  rw [generateDaySchedule_ok_slots dayIndex allocations sessionSettings ctx
    currentDay dateStr fuel ds h]
  rfl

/-- Session settings exactly as `getSessionSettings` builds them:
`dailyHours` absent. -/
def exSessionSettings : SessionSettings :=
  { sessionLength := 60, breakDuration := 10, longBreakDuration := 30
    dailyHours := none }

/-- A fresh scheduler context (part_000 338-343). -/
def exSchedCtx : SchedContext :=
  { lastScheduledSubject := none, daysSinceLastStudy := []
    consecutiveSessions := 0, sessionCountToday := 0 }

/-- The empty day every generation run produces. -/
def exEmptyDay : DaySchedule :=
  { day := 1, date := "d", totalSessions := 0, totalStudyHours := 0, slots := [] }

/-- Evaluation of a concrete generation run (helper for the C6 witness). -/
theorem generateDaySchedule_empty_eval :
    generateDaySchedule 0 [] exSessionSettings exSchedCtx 0 "d" 1 =
      some (.ok exEmptyDay) := by
  have hd : exSessionSettings.dailyHours = none := rfl
  unfold generateDaySchedule
  rw [hd, fillLoop_undefined_hours _ _ _ _ 1 (by norm_num)]
  norm_num [exEmptyDay]

/-- Witness for C6 at a concrete generation run. -/
theorem generateDaySchedule_no_back_to_back_witness :
    generateDaySchedule 0 [] exSessionSettings exSchedCtx 0 "d" 1 =
      some (.ok exEmptyDay) ∧
    noAdjacentRepeat (studySubjectSeq exEmptyDay.slots) = true :=
  ⟨generateDaySchedule_empty_eval,
   generateDaySchedule_no_back_to_back 0 [] exSessionSettings exSchedCtx 0 "d" 1
     exEmptyDay generateDaySchedule_empty_eval⟩

/-- A concrete adjustments bag (as `calculateSubjectWeights` would build
for a high-priority hard subject under a well-formed context). -/
def exAdjustments : Adjustments :=
  { priority_allocation := { weightMultiplier := 3 }
    difficulty_adaptation := { adaptedSessionLength := .nan, breakMultiplier := 1.5 }
    time_preference := { preferredTimeSlots := [9, 12] }
    consecutive_avoidance := { avoidConsecutive := false, coolDown := 0 }
    revision_scheduling := { needsRevision := false, revisionPriority := 1 } }

/-- A concrete allocation record for the C7 failing input. -/
def exAllocHard : Alloc :=
  { toSubject := exSubjectHard, adjustments := exAdjustments
    allocatedHours := 4, sessionsPerDay := 2
    hoursScheduled := none, hoursScheduledToday := none }

/-- C7 (code bug).  At the failing input — one allocated subject, the
session settings the input boundary actually produces, a fresh context —
the generated day is empty and ends where it starts (9:00): no generated
day can ever span past noon, so the lunch-break insertion the claim
describes never happens.  The fill loop reads
`sessionSettings.dailyHours`, a field `getSessionSettings` never sets, so
`remainingHours > 0` is false immediately. -/
theorem generateDaySchedule_lunch_unreachable :
    generateDaySchedule 0 [exAllocHard] exSessionSettings exSchedCtx 0 "d" 9 =
      some (.ok exEmptyDay) ∧
    (exEmptyDay.slots.filter (fun s => s.breakType = "lunch")).length = 0 := by
  constructor
  · have hd : exSessionSettings.dailyHours = none := rfl
    unfold generateDaySchedule
    rw [hd, fillLoop_undefined_hours _ _ _ _ 9 (by norm_num)]
    norm_num [exEmptyDay]
  · rfl

end StudyPlanner
namespace StudyPlanner

/-! ## Export and import (src/unnamed/part_000 lines 677-681 and 295-326,
src/storage.js lines 121-141)

`JSON.stringify` followed by `JSON.parse` is the identity on
JSON-serialisable values, so the string layer is elided: `exportSchedule`
is modelled as the parsed value of the exported string, and the importers
consume that value (an unparseable input string would take the importers'
catch branch, which the exported string never does). -/

/-- A parsed JSON value. -/
inductive Json where
  | null
  | bool (b : Bool)
  | num (q : Rat)
  | str (s : String)
  | arr (items : List Json)
  | obj (fields : List (String × Json))
  deriving Repr

/-- Property access `v.k`: named fields exist only on objects; on arrays,
strings and primitives a named property such as `plan` or `subjects` is
`undefined`. -/
def Json.getField : Json → String → Option Json
  | .obj fields, k => dictGet fields k
  | _, _ => none

/-- JS truthiness of a possibly-undefined value. -/
def Json.truthy : Option Json → Bool
  | none => false
  | some .null => false
  | some (.bool b) => b
  | some (.num q) => q != 0
  | some (.str s) => s ≠ ""
  | some (.arr _) => true
  | some (.obj _) => true

/-- JSON form of a slot object (break slots were built without
`subjectId`/`priority`/`difficulty`/`completed`, session slots without
`breakType`, so the two shapes serialise differently). -/
def encodeSlot (s : Slot) : Json :=
  if s.type = "break" then
    .obj [("id", .str s.id), ("type", .str s.type),
          ("subjectName", .str s.subjectName), ("startTime", .str s.startTime),
          ("endTime", .str s.endTime), ("duration", .num s.duration),
          ("breakType", .str s.breakType), ("day", .num s.day)]
  else
    .obj [("id", .str s.id), ("type", .str s.type),
          ("subjectId", .str s.subjectId), ("subjectName", .str s.subjectName),
          ("priority", .str s.priority), ("difficulty", .str s.difficulty),
          ("startTime", .str s.startTime), ("endTime", .str s.endTime),
          ("duration", .num s.duration), ("completed", .bool s.completed),
          ("day", .num s.day)]

/-- JSON form of a day schedule object. -/
def encodeDay (d : DaySchedule) : Json :=
  .obj [("day", .num d.day), ("date", .str d.date),
        ("totalSessions", .num d.totalSessions),
        ("totalStudyHours", .num d.totalStudyHours),
        ("slots", .arr (d.slots.map encodeSlot))]

/-- `exportSchedule('json')` (part_000 677-681):
`JSON.stringify(this.schedule, null, 2)` — a bare ARRAY of day objects,
with no `plan`, `subjects` or `inputs` key. -/
def exportScheduleJson (schedule : List DaySchedule) : Json :=
  .arr (schedule.map encodeDay)

/-- The localStorage keys the StorageManager uses, as an abstract store. -/
structure Storage where
  plan : Option Json
  progress : Option Json
  prefs : Option Json
  deriving Repr

/-- The `{success, message}` object both importers return. -/
structure ImportResult where
  success : Bool
  message : String
  deriving Repr, DecidableEq

/-- `StorageManager.importData(jsonString)` (storage.js 121-141) on the
parsed input: each of `data.plan`, `data.progress`, `data.preferences` is
stored only if truthy; the result always reports success for parseable
input. -/
def storageImportData (data : Json) (st : Storage) : ImportResult × Storage :=
  let st := if Json.truthy (data.getField "plan") then
      { st with plan := data.getField "plan" } else st
  let st := if Json.truthy (data.getField "progress") then
      { st with progress := data.getField "progress" } else st
  let st := if Json.truthy (data.getField "preferences") then
      { st with prefs := data.getField "preferences" } else st
  ({ success := true, message := "Data imported successfully" }, st)

/-- `StorageManager.loadPlan()` (storage.js 24-34). -/
def storageLoadPlan (st : Storage) : Option Json := st.plan

/-- The InputManager state the import path touches: the subjects array
and the form field values (`renderSubjects`/`savePreferences` side
effects — DOM rendering and a write to the USER_PREFS key — touch
neither the plan key nor any schedule). -/
structure InputState where
  subjects : Json
  startDateValue : String
  endDateValue : String
  dailyHoursValue : Json
  sessionLengthValue : Json
  breakDurationValue : Json
  deriving Repr

/-- The `new Date(v).toISOString().split('T')[0]` conversion applied to an
imported timeline date.  `Date` is a browser built-in outside the
repository's sources and no claim depends on its output (the branch never
fires for exported-schedule input), so the rendering is a placeholder. -/
def jsDateIsoDate (v : Json) : String :=
  "date:" ++ (match v with | .str s => s | _ => "")

/-- `InputManager.importData(jsonString)` (part_000 295-326) on the
parsed input: assigns `data.subjects` when truthy, applies
`data.inputs.timeline` and `data.inputs.sessionSettings` to the form
fields when truthy, then saves preferences and reports success. -/
def inputImportData (data : Json) (st : InputState) : ImportResult × InputState :=
  let st := if Json.truthy (data.getField "subjects") then
      { st with subjects := (data.getField "subjects").getD .null } else st
  let st :=
    if Json.truthy (data.getField "inputs") then
      let inputs := (data.getField "inputs").getD .null
      let st :=
        if Json.truthy (inputs.getField "timeline") then
          let timeline := (inputs.getField "timeline").getD .null
          { st with
              startDateValue := jsDateIsoDate ((timeline.getField "startDate").getD .null)
              endDateValue := jsDateIsoDate ((timeline.getField "endDate").getD .null)
              dailyHoursValue := (timeline.getField "dailyHours").getD .null }
        else st
      let st :=
        if Json.truthy (inputs.getField "sessionSettings") then
          let settings := (inputs.getField "sessionSettings").getD .null
          { st with
              sessionLengthValue := (settings.getField "sessionLength").getD .null
              breakDurationValue := (settings.getField "breakDuration").getD .null }
        else st
      st
    else st
  ({ success := true, message := "Data imported successfully" }, st)

/-- C9 (amended).  Re-importing the string produced by
`exportSchedule('json')` through either import operation is a successful
no-op: the exported document is a bare array, so every key the importers
read (`plan`, `progress`, `preferences` in the StorageManager;
`subjects`, `inputs` in the InputManager) is undefined, nothing is
restored, and no equivalent schedule is reproduced anywhere. -/
theorem exportSchedule_import_noop (schedule : List DaySchedule) (st : Storage)
    (ist : InputState) :
    storageImportData (exportScheduleJson schedule) st =
      ({ success := true, message := "Data imported successfully" }, st) ∧
    inputImportData (exportScheduleJson schedule) ist =
      ({ success := true, message := "Data imported successfully" }, ist) :=
  ⟨rfl, rfl⟩

/-- An initial input-manager state for the C9 counterexample. -/
def exInputState : InputState :=
  { subjects := .arr [], startDateValue := "", endDateValue := ""
    dailyHoursValue := .null, sessionLengthValue := .null
    breakDurationValue := .null }

/-- C9 (counterexample).  A concrete one-day schedule with two slots is
exported and re-imported: the store still holds no plan (`loadPlan` is
`none`, so no schedule with the original slot count can be read back),
and the input manager's state is unchanged — the round trip reproduces
nothing. -/
theorem exportSchedule_roundtrip_cex :
    exDaySchedule.slots.length = 2 ∧
    storageLoadPlan ((storageImportData (exportScheduleJson [exDaySchedule])
      { plan := none, progress := none, prefs := none }).2) = none ∧
    (inputImportData (exportScheduleJson [exDaySchedule]) exInputState).2 =
      exInputState :=
  ⟨rfl, rfl, rfl⟩

end StudyPlanner
